import Mathlib

/-!
Shallow embedding of the sprite-to-3D Blender scripts of this repository
(src/scripts): `blender-sprite-to-3d.py`, `blender-character-to-3d.py`,
`blender-quick-convert.py`, `blender-addon-sprite-converter.py` and
`blender-fbx-to-glb.py`.

Modelling conventions:
- Python float literals are modelled as exact rationals (`0.5` is `1/2`,
  `1.05` is `21/20`, `0.001` is `1/1000`).
- The Blender host is an external collaborator: image loading is an
  environment function returning pixel dimensions (`none` models a decode
  failure), and a reached GLB export call is recorded as
  `exported = some path` (the exporter itself is assumed to succeed).
- Each created Blender object is recorded as a `SceneObject`: primitive
  shape, size/radius argument, location, scale, object name, its material
  (which shader-node links were created, which socket defaults were set,
  the blend method) and whether a UV unwrap was run on it.
- `return False` with an error print is recorded as the corresponding
  `ConvResult` error constructor; an exception that the script does not
  catch is recorded as a `raised…` constructor.
-/

structure Vec3 where
  x : ℚ
  y : ℚ
  z : ℚ
deriving DecidableEq

structure RGBA where
  r : ℚ
  g : ℚ
  b : ℚ
  a : ℚ
deriving DecidableEq

/-- Primitive shapes created by the scripts: `primitive_cube_add`,
`primitive_plane_add`, `primitive_uv_sphere_add`. -/
inductive Shape where
  | cube
  | plane
  | uvSphere
deriving DecidableEq

/-- Material blend method; the scripts only ever set `'BLEND'`
(the Blender default is `'OPAQUE'`). -/
inductive BlendMethod where
  | OPAQUE
  | BLEND
deriving DecidableEq

/-- A UV unwrap operation run on an object (`bpy.ops.uv.unwrap`). -/
structure UVMap where
  method : String
  margin : ℚ
deriving DecidableEq

/-- One Blender material as wired by the scripts: which image (if any) the
image-texture node holds, which links from that node were created, which
socket default values were set, and the blend method. -/
structure MaterialSpec where
  name : String
  textureImage : Option String
  baseColorFromTexture : Bool
  alphaFromTexture : Bool
  emissionFromTexture : Bool
  emissionStrength : Option ℚ
  baseColorValue : Option RGBA
  alphaValue : Option ℚ
  blend : BlendMethod
deriving DecidableEq

/-- One object added to the scene together with its appended material.
`size` is the `size=` argument of cube/plane adds and the `radius=` of the
uv-sphere add. -/
structure SceneObject where
  shape : Shape
  size : ℚ
  location : Vec3
  scale : Vec3
  name : String
  material : MaterialSpec
  uv : Option UVMap
deriving DecidableEq

/-- Outcome of one conversion-function call. `ok`/`errNotFound`/`errDecode`
model `return True` and the two `return False` branches; `raisedDecode`
models the uncaught `bpy.data.images.load` exception in the character
script; `raisedMakedirs` models the uncaught `os.makedirs('')`
`FileNotFoundError` in the quick-convert script. -/
inductive ConvResult where
  | ok
  | errNotFound
  | errDecode
  | raisedDecode
  | raisedMakedirs
deriving DecidableEq

structure ConvOutput where
  objects : List SceneObject
  exported : Option String
  result : ConvResult
deriving DecidableEq

/-- The host environment: which paths exist on disk, and the pixel
dimensions Blender reports for an image it can load (`none` = load
raises, i.e. the file is not a decodable image). -/
structure Env where
  fileExists : String → Bool
  loadImage : String → Option (ℕ × ℕ)

/-- One layer of the voxel branch of `blender-sprite-to-3d.py`
(lines 90-109): plane `SpriteLayer_i` at `y = (i/8 - 0.5) * depth`, with
its own material `SpriteMaterial_i` linking the texture's Color to Base
Color and its Alpha to Alpha, blend `'BLEND'`. -/
def voxelLayerSprite (img : String) (aspect depth : ℚ) (i : ℕ) : SceneObject :=
  { shape := Shape.plane
  , size := 2
  , location := ⟨0, ((i : ℚ) / 8 - 1/2) * depth, 0⟩
  , scale := ⟨aspect, 1, 1⟩
  , name := s!"SpriteLayer_{i}"
  , material :=
    { name := s!"SpriteMaterial_{i}"
    , textureImage := some img
    , baseColorFromTexture := true
    , alphaFromTexture := true
    , emissionFromTexture := false
    , emissionStrength := none
    , baseColorValue := none
    , alphaValue := none
    , blend := BlendMethod.BLEND }
  , uv := none }

/-- `create_3d_from_sprite` of `blender-sprite-to-3d.py` (lines 17-129).
Existence check, image load, then the `'extrude'` / `'voxel'` branches;
any other method string builds nothing, and the function still exports
and returns `True`. -/
def create_3d_from_sprite (env : Env) (image_path output_path : String)
    (depth : ℚ) (method : String) : ConvOutput :=
  if env.fileExists image_path = false then
    { objects := [], exported := none, result := ConvResult.errNotFound }
  else
    match env.loadImage image_path with
    | none => { objects := [], exported := none, result := ConvResult.errDecode }
    | some (w, h) =>
      let aspect : ℚ := (w : ℚ) / (h : ℚ)
      let objects : List SceneObject :=
        if method = "extrude" then
          [ { shape := Shape.cube
            , size := 2
            , location := ⟨0, 0, 0⟩
            , scale := ⟨aspect, 1, depth⟩
            , name := "Cube"
            , material :=
              { name := "SpriteMaterial"
              , textureImage := some image_path
              , baseColorFromTexture := true
              , alphaFromTexture := true
              , emissionFromTexture := false
              , emissionStrength := none
              , baseColorValue := none
              , alphaValue := some 1
              , blend := BlendMethod.BLEND }
            , uv := some ⟨"ANGLE_BASED", 1/1000⟩ } ]
        else if method = "voxel" then
          (List.range 8).map (voxelLayerSprite image_path aspect depth)
        else []
      { objects := objects, exported := some output_path, result := ConvResult.ok }

/-- Concrete environment for witnesses: exactly one file `s.png` exists
and decodes as an 800x400 image. -/
def env0 : Env :=
  { fileExists := fun p => p = "s.png"
  , loadImage := fun p => if p = "s.png" then some (800, 400) else none }

/-- `create_billboard_character` of `blender-character-to-3d.py`
(lines 29-167). Existence check via `load_sprite_image` (returns `None`,
so the function returns `False`); an image-load failure there is an
uncaught exception. Then the `'billboard'` / `'billboard-depth'` /
`'capsule'` branches; any other method string builds nothing, and the
function still exports and returns `True`. -/
def create_billboard_character (env : Env) (image_path output_path : String)
    (method : String) (depth : ℚ) : ConvOutput :=
  if env.fileExists image_path = false then
    { objects := [], exported := none, result := ConvResult.errNotFound }
  else
    match env.loadImage image_path with
    | none => { objects := [], exported := none, result := ConvResult.raisedDecode }
    | some (w, h) =>
      let aspect : ℚ := (w : ℚ) / (h : ℚ)
      let frontPlane : SceneObject :=
        { shape := Shape.plane
        , size := 2
        , location := ⟨0, 0, 0⟩
        , scale := ⟨aspect, 1, 1⟩
        , name := "CharacterBillboard"
        , material :=
          { name := "CharacterMaterial"
          , textureImage := some image_path
          , baseColorFromTexture := true
          , alphaFromTexture := true
          , emissionFromTexture := false
          , emissionStrength := none
          , baseColorValue := none
          , alphaValue := none
          , blend := BlendMethod.BLEND }
        , uv := none }
      let objects : List SceneObject :=
        if method = "billboard" then
          [frontPlane]
        else if method = "billboard-depth" then
          [ frontPlane
          , { shape := Shape.plane
            , size := 2
            , location := ⟨0, -depth, 0⟩
            , scale := ⟨aspect * (21/20), 21/20, 1⟩
            , name := "CharacterShadow"
            , material :=
              { name := "CharacterShadowMaterial"
              , textureImage := none
              , baseColorFromTexture := false
              , alphaFromTexture := false
              , emissionFromTexture := false
              , emissionStrength := none
              , baseColorValue := some ⟨0, 0, 0, 1⟩
              , alphaValue := some (3/10)
              , blend := BlendMethod.BLEND }
            , uv := none } ]
        else if method = "capsule" then
          [ { shape := Shape.uvSphere
            , size := 1/2
            , location := ⟨0, 0, 1/2⟩
            , scale := ⟨aspect * (3/5), 3/5, 1⟩
            , name := "CharacterBody"
            , material :=
              { name := "CharacterMaterial"
              , textureImage := some image_path
              , baseColorFromTexture := true
              , alphaFromTexture := true
              , emissionFromTexture := true
              , emissionStrength := some (1/2)
              , baseColorValue := none
              , alphaValue := none
              , blend := BlendMethod.BLEND }
            , uv := none }
          , { shape := Shape.plane
            , size := 2
            , location := ⟨0, 1/10, 1/2⟩
            , scale := ⟨aspect, 1, 1⟩
            , name := "CharacterSprite"
            , material :=
              { name := "CharacterSpriteMaterial"
              , textureImage := some image_path
              , baseColorFromTexture := true
              , alphaFromTexture := true
              , emissionFromTexture := false
              , emissionStrength := none
              , baseColorValue := none
              , alphaValue := none
              , blend := BlendMethod.BLEND }
            , uv := none } ]
        else []
      { objects := objects, exported := some output_path, result := ConvResult.ok }

/-- Model of Python `os.path.dirname` for the POSIX-style paths the claims
use: the part of the path before the last `'/'`, with trailing slashes
stripped unless the head is all slashes; `""` when there is no `'/'`. -/
def dirname (p : String) : String :=
  let cs := p.data
  let i := cs.length - (cs.reverse.takeWhile (fun c => c ≠ '/')).length
  let head := cs.take i
  let head := if head ≠ [] ∧ head.any (fun c => c ≠ '/') then
      (head.reverse.dropWhile (fun c => c = '/')).reverse
    else head
  String.mk head

/-- One layer of the voxel branches of `blender-quick-convert.py`
(lines 84-102) and `blender-addon-sprite-converter.py` (lines 109-127),
which are textually identical there: plane `SpriteLayer_i` at
`y = (i/8 - 0.5) * depth` with its own material `SpriteMaterial_i`; only
the texture's Color output is linked (to Base Color) — no Alpha link —
and the blend method is set to `'BLEND'`. -/
def voxelLayerColorOnly (img : String) (aspect depth : ℚ) (i : ℕ) : SceneObject :=
  { shape := Shape.plane
  , size := 2
  , location := ⟨0, ((i : ℚ) / 8 - 1/2) * depth, 0⟩
  , scale := ⟨aspect, 1, 1⟩
  , name := s!"SpriteLayer_{i}"
  , material :=
    { name := s!"SpriteMaterial_{i}"
    , textureImage := some img
    , baseColorFromTexture := true
    , alphaFromTexture := false
    , emissionFromTexture := false
    , emissionStrength := none
    , baseColorValue := none
    , alphaValue := none
    , blend := BlendMethod.BLEND }
  , uv := none }

/-- `convert_sprite_to_3d` of `blender-quick-convert.py` (lines 25-124).
Like `create_3d_from_sprite` but the extrude cube is renamed `Sprite3D`,
the voxel-layer materials get no Alpha link, and before exporting the
script runs `os.makedirs(os.path.dirname(output_path), exist_ok=True)`
with no guard, which raises `FileNotFoundError` when the dirname is the
empty string (output path with no directory component). -/
def convert_sprite_to_3d (env : Env) (sprite_path output_path : String)
    (depth : ℚ) (method : String) : ConvOutput :=
  if env.fileExists sprite_path = false then
    { objects := [], exported := none, result := ConvResult.errNotFound }
  else
    match env.loadImage sprite_path with
    | none => { objects := [], exported := none, result := ConvResult.errDecode }
    | some (w, h) =>
      let aspect : ℚ := (w : ℚ) / (h : ℚ)
      let objects : List SceneObject :=
        if method = "extrude" then
          [ { shape := Shape.cube
            , size := 2
            , location := ⟨0, 0, 0⟩
            , scale := ⟨aspect, 1, depth⟩
            , name := "Sprite3D"
            , material :=
              { name := "SpriteMaterial"
              , textureImage := some sprite_path
              , baseColorFromTexture := true
              , alphaFromTexture := true
              , emissionFromTexture := false
              , emissionStrength := none
              , baseColorValue := none
              , alphaValue := some 1
              , blend := BlendMethod.BLEND }
            , uv := some ⟨"ANGLE_BASED", 1/1000⟩ } ]
        else if method = "voxel" then
          (List.range 8).map (voxelLayerColorOnly sprite_path aspect depth)
        else []
      let makedirsRaises := dirname output_path = ""
      { objects := objects
      , exported := if makedirsRaises then none else some output_path
      , result := if makedirsRaises then ConvResult.raisedMakedirs else ConvResult.ok }

/-- Method of the addon operator: a Blender `EnumProperty` restricted to
exactly these two items (`blender-addon-sprite-converter.py` lines 48-56). -/
inductive AddonMethod where
  | EXTRUDE
  | VOXEL
deriving DecidableEq

/-- Return status of the addon operator's `execute`. -/
inductive AddonStatus where
  | FINISHED
  | CANCELLED
deriving DecidableEq

structure AddonOutput where
  objects : List SceneObject
  status : AddonStatus
deriving DecidableEq

/-- Clamping performed by the operator's `FloatProperty` for `depth`
(`min=0.1, max=2.0`, lines 40-46): Blender clamps any assigned value into
that range before `execute` can read it. -/
def addonDepthClamp (d : ℚ) : ℚ := max (1/10) (min 2 d)

/-- `ConvertSpriteTo3D.execute` of `blender-addon-sprite-converter.py`
(lines 58-130), as a function of the already-clamped `self.depth`. The
operator does not export; it only builds the objects and reports. -/
def ConvertSpriteTo3D_execute (env : Env) (filepath : String) (depth : ℚ)
    (method : AddonMethod) : AddonOutput :=
  if env.fileExists filepath = false then
    { objects := [], status := AddonStatus.CANCELLED }
  else
    match env.loadImage filepath with
    | none => { objects := [], status := AddonStatus.CANCELLED }
    | some (w, h) =>
      let aspect : ℚ := (w : ℚ) / (h : ℚ)
      let objects : List SceneObject :=
        match method with
        | AddonMethod.EXTRUDE =>
          [ { shape := Shape.cube
            , size := 2
            , location := ⟨0, 0, 0⟩
            , scale := ⟨aspect, 1, depth⟩
            , name := "Cube"
            , material :=
              { name := "SpriteMaterial"
              , textureImage := some filepath
              , baseColorFromTexture := true
              , alphaFromTexture := true
              , emissionFromTexture := false
              , emissionStrength := none
              , baseColorValue := none
              , alphaValue := some 1
              , blend := BlendMethod.BLEND }
            , uv := some ⟨"ANGLE_BASED", 1/1000⟩ } ]
        | AddonMethod.VOXEL =>
          (List.range 8).map (voxelLayerColorOnly filepath aspect depth)
      { objects := objects, status := AddonStatus.FINISHED }

/-- Invoking the addon operator with a requested depth value: the
`FloatProperty` clamps the value into `[0.1, 2.0]` before `execute`
reads it. -/
def ConvertSpriteTo3D_run (env : Env) (filepath : String) (requestedDepth : ℚ)
    (method : AddonMethod) : AddonOutput :=
  ConvertSpriteTo3D_execute env filepath (addonDepthClamp requestedDepth) method

/-- Accumulated value of a list of decimal digit characters. -/
def digitsVal (cs : List Char) : ℕ :=
  cs.foldl (fun n c => n * 10 + (c.toNat - 48)) 0

/-- Model of Python's `float()` on the simple decimal literals the scripts
receive: optional sign, digits, optional fractional part. `none` models a
raised `ValueError` (exponents, `inf`/`nan` and surrounding whitespace are
outside the inputs considered here). -/
def pyFloat (s : String) : Option ℚ :=
  let cs := s.data
  let sign : ℚ := if cs.head? = some '-' then -1 else 1
  let body := if cs.head? = some '-' ∨ cs.head? = some '+' then cs.tail else cs
  let intPart := body.takeWhile Char.isDigit
  let rest := body.dropWhile Char.isDigit
  if rest = [] then
    if intPart = [] then none
    else some (sign * (digitsVal intPart : ℚ))
  else if rest.head? = some '.' ∧ rest.tail.all Char.isDigit
      ∧ ¬(intPart = [] ∧ rest.tail = []) then
    some (sign * ((digitsVal intPart : ℚ)
      + (digitsVal rest.tail : ℚ) / (10 : ℚ) ^ rest.tail.length))
  else none

/-- Outcome of running a standalone script's `main`: `usage` — usage text
printed to stdout and `main` returns (the process then exits 0); `raised`
— an uncaught exception (here: `float()` on a non-numeric argument);
`exited c out` — `sys.exit(c)` after the conversion produced `out`. -/
inductive MainOutcome where
  | usage
  | raised
  | exited (code : ℕ) (out : ConvOutput)
deriving DecidableEq

/-- `main` of `blender-sprite-to-3d.py` (lines 131-151): with fewer than
two arguments it prints usage and returns; otherwise argument 2 (if any)
is parsed as `depth` via `float()` and argument 3 (if any) is `method`,
then it exits 0 when the conversion returned `True` and 1 otherwise. -/
def spriteTo3d_main (env : Env) (argv : List String) : MainOutcome :=
  match argv with
  | image_path :: output_path :: rest =>
    match (match rest with
           | [] => some (1/2 : ℚ)
           | d :: _ => pyFloat d) with
    | none => MainOutcome.raised
    | some depth =>
      let method := match rest with
        | _ :: m :: _ => m
        | _ => "extrude"
      let out := create_3d_from_sprite env image_path output_path depth method
      MainOutcome.exited (if out.result = ConvResult.ok then 0 else 1) out
  | _ => MainOutcome.usage

/-- `main` of `blender-character-to-3d.py` (lines 169-188): with fewer
than two arguments it prints usage and returns; otherwise argument 2 (if
any) is `method` and argument 3 (if any) is parsed as `depth` via
`float()`, then it exits 0 when the conversion returned `True` and 1
otherwise. -/
def characterTo3d_main (env : Env) (argv : List String) : MainOutcome :=
  match argv with
  | image_path :: output_path :: rest =>
    let method := match rest with
      | [] => "billboard-depth"
      | m :: _ => m
    match (match rest with
           | _ :: d :: _ => pyFloat d
           | _ => some (1/10 : ℚ)) with
    | none => MainOutcome.raised
    | some depth =>
      let out := create_billboard_character env image_path output_path method depth
      MainOutcome.exited (if out.result = ConvResult.ok then 0 else 1) out
  | _ => MainOutcome.usage

/-- Outcome of the module-level `blender-fbx-to-glb.py` script. -/
inductive FbxOutcome where
  | usageExit
  | notFoundExit
  | converted (input output : String)
deriving DecidableEq

/-- Top level of `blender-fbx-to-glb.py` (lines 16-118): exactly two
positional arguments `<input.fbx> <output.glb>`; with fewer it prints
usage and exits 1; a missing input exits 1. FBX import and GLB export are
host calls modelled as succeeding (their failure paths also exit 1). -/
def fbxToGlb_script (env : Env) (argv : List String) : FbxOutcome :=
  match argv with
  | input :: output :: _ =>
    if env.fileExists input = false then FbxOutcome.notFoundExit
    else FbxOutcome.converted input output
  | _ => FbxOutcome.usageExit

/-- Spec-words definition (used only to settle claim C1): `n` values
evenly spaced across the closed interval `[a, b]`, both endpoints
included. -/
def closedLinspace (a b : ℚ) (n : ℕ) : List ℚ :=
  (List.range n).map (fun i => a + (b - a) * (i : ℚ) / ((n : ℚ) - 1))

/-- What the voxel branch actually guarantees at `layerCount = 8`,
`depth = 2/5` (claim C1, amended): 8 planes at
`y = (i/8 - 1/2) * depth`, i.e. evenly spaced with step `depth/8 = 1/20`
from `-1/5` up to `3/20` only — the top of the interval, `1/5`, is not
reached; each plane has its own distinctly named material and all
materials reference the same sprite texture with blend `'BLEND'`. The
identical voxel branch of the addon operator places its layers at the
same positions. -/
def voxelLayersDescription (env : Env) (p o : String) : Prop :=
  (create_3d_from_sprite env p o (2/5) "voxel").objects.map (fun ob => ob.location.y)
    = [-(1/5), -(3/20), -(1/10), -(1/20), 0, 1/20, 1/10, 3/20]
  ∧ (∀ ob ∈ (create_3d_from_sprite env p o (2/5) "voxel").objects,
      ob.shape = Shape.plane)
  ∧ ((create_3d_from_sprite env p o (2/5) "voxel").objects.map
      (fun ob => ob.material.name)).Nodup
  ∧ (∀ ob ∈ (create_3d_from_sprite env p o (2/5) "voxel").objects,
      ob.material.textureImage = some p ∧ ob.material.blend = BlendMethod.BLEND)
  ∧ (ConvertSpriteTo3D_run env p (2/5) AddonMethod.VOXEL).objects.map
      (fun ob => ob.location.y)
    = [-(1/5), -(3/20), -(1/10), -(1/20), 0, 1/20, 1/10, 3/20]

/-- Claim C1 fails as stated: for `layerCount = 8`, `depth = 2/5` the
eight voxel-layer y-positions are not evenly spaced across the closed
interval `[-1/5, 1/5]` — the endpoint `1/5` is attained by no layer, and
the position list differs from the 8-point closed linspace over that
interval. -/
theorem c1_voxel_spacing_counterexample :
    ((create_3d_from_sprite env0 "s.png" "out/model.glb" (2/5) "voxel").objects.map
      (fun ob => ob.location.y)).length = 8
    ∧ (1/5 : ℚ) ∉ (create_3d_from_sprite env0 "s.png" "out/model.glb" (2/5) "voxel").objects.map
      (fun ob => ob.location.y)
    ∧ (create_3d_from_sprite env0 "s.png" "out/model.glb" (2/5) "voxel").objects.map
      (fun ob => ob.location.y) ≠ closedLinspace (-(1/5)) (1/5) 8 := by
  refine ⟨?_, ?_, ?_⟩
  · simp [create_3d_from_sprite, env0, voxelLayerSprite]
  · simp [create_3d_from_sprite, env0, voxelLayerSprite, List.range_succ]
    norm_num
  · intro hcontra
    simp [create_3d_from_sprite, env0, voxelLayerSprite, closedLinspace,
      List.range_succ] at hcontra
    norm_num at hcontra

/-- Claim C1, amended: the Voxel method with `layerCount = 8`,
`depth = 2/5` creates exactly 8 planes whose y-positions step evenly by
`depth/8 = 1/20` from `-depth/2 = -1/5` to `3/20` (the closed interval
`[-depth/2, depth/2 - depth/8]`, not `[-depth/2, depth/2]`), each with
its own distinct material instance referencing the same sprite texture. -/
theorem c1_voxel_layers_amended (env : Env) (p o : String) (w h : ℕ)
    (hf : env.fileExists p = true) (hl : env.loadImage p = some (w, h)) :
    voxelLayersDescription env p o := by
  refine ⟨?_, ?_, ?_, ?_, ?_⟩
  · simp [create_3d_from_sprite, hf, hl, voxelLayerSprite, List.range_succ]
    norm_num
  · simp [create_3d_from_sprite, hf, hl, voxelLayerSprite, List.range_succ]
  · simp [create_3d_from_sprite, hf, hl, voxelLayerSprite, List.range_succ]
    decide
  · simp [create_3d_from_sprite, hf, hl, voxelLayerSprite, List.range_succ]
  · simp [ConvertSpriteTo3D_run, ConvertSpriteTo3D_execute, addonDepthClamp,
      hf, hl, voxelLayerColorOnly, List.range_succ]
    norm_num

/-- Witness for C1's amended theorem at the concrete environment `env0`. -/
theorem c1_voxel_layers_witness : voxelLayersDescription env0 "s.png" "o.glb" :=
  c1_voxel_layers_amended env0 "s.png" "o.glb" 800 400 rfl rfl

/-- Claim C2 fails as stated: the unknown method string `"bogus"` does not
fail — `create_3d_from_sprite` builds no geometry but still reaches the
export call and returns `True` (result `ok`). -/
theorem c2_unknown_method_counterexample :
    (create_3d_from_sprite env0 "s.png" "o.glb" (1/2) "bogus").result = ConvResult.ok
    ∧ (create_3d_from_sprite env0 "s.png" "o.glb" (1/2) "bogus").exported = some "o.glb"
    ∧ (create_3d_from_sprite env0 "s.png" "o.glb" (1/2) "bogus").objects = [] := by
  refine ⟨?_, ?_, ?_⟩ <;> simp [create_3d_from_sprite, env0]

/-- Claim C2, amended: for a method string outside the enumerated ones,
the standalone conversions build no geometry but still export the (empty)
scene and report success; there is no `InvalidMethodError` path. (The
addon operator alone cannot receive an unknown method, its `EnumProperty`
admits only `EXTRUDE` and `VOXEL`.) -/
theorem c2_unknown_method_amended (env : Env) (p o : String) (d : ℚ) (m : String)
    (w h : ℕ) (hf : env.fileExists p = true) (hl : env.loadImage p = some (w, h))
    (h1 : m ≠ "extrude") (h2 : m ≠ "voxel") (h3 : m ≠ "billboard")
    (h4 : m ≠ "billboard-depth") (h5 : m ≠ "capsule") :
    create_3d_from_sprite env p o d m
      = { objects := [], exported := some o, result := ConvResult.ok }
    ∧ create_billboard_character env p o m d
      = { objects := [], exported := some o, result := ConvResult.ok } := by
  constructor
  · simp [create_3d_from_sprite, hf, hl, h1, h2]
  · simp [create_billboard_character, hf, hl, h3, h4, h5]

/-- Witness for C2's amended theorem at the concrete environment `env0`
and the unknown method `"bogus"`. -/
theorem c2_unknown_method_witness :
    create_3d_from_sprite env0 "s.png" "o.glb" (1/2) "bogus"
      = { objects := [], exported := some "o.glb", result := ConvResult.ok }
    ∧ create_billboard_character env0 "s.png" "o.glb" "bogus" (1/2)
      = { objects := [], exported := some "o.glb", result := ConvResult.ok } :=
  c2_unknown_method_amended env0 "s.png" "o.glb" (1/2) "bogus" 800 400 rfl rfl
    (by decide) (by decide) (by decide) (by decide) (by decide)

/-- Claim C3 fails as stated: `blender-sprite-to-3d.py` interprets
positional argument 2 as `depth` and argument 3 as `method` — the
opposite of the claimed `[method] [depth]` order. Passing the method in
position 2 makes `float()` raise (uncaught), while passing the depth
there runs the conversion and exits 0. -/
theorem c3_arg_order_counterexample :
    spriteTo3d_main env0 ["s.png", "o.glb", "voxel", "0.4"] = MainOutcome.raised
    ∧ spriteTo3d_main env0 ["s.png", "o.glb", "0.4", "voxel"]
      = MainOutcome.exited 0 (create_3d_from_sprite env0 "s.png" "o.glb" (2/5) "voxel") := by
  constructor
  · decide
  · have hp : pyFloat "0.4" = some (2/5) := by
      simp [pyFloat, digitsVal]
      norm_num
    simp [spriteTo3d_main, hp, create_3d_from_sprite, env0]

/-- Claim C3, amended: `blender-character-to-3d.py` uses the order
`<sprite> <output> [method] [depth]`, but `blender-sprite-to-3d.py` uses
`<sprite> <output> [depth] [method]`, and `blender-fbx-to-glb.py` takes
only `<input> <output>`. All three print usage text when fewer than two
arguments are given (the fbx script then exits 1, the other two return
and the process exits 0); on a run that reaches the conversion, the two
sprite scripts exit 0 when it succeeds and 1 when it fails. -/
theorem c3_cli_contract_amended :
    (∀ env p o a2 a3,
      characterTo3d_main env [p, o, a2, a3]
        = match pyFloat a3 with
          | none => MainOutcome.raised
          | some d =>
            MainOutcome.exited
              (if (create_billboard_character env p o a2 d).result = ConvResult.ok
               then 0 else 1)
              (create_billboard_character env p o a2 d))
    ∧ (∀ env p o a2 a3,
      spriteTo3d_main env [p, o, a2, a3]
        = match pyFloat a2 with
          | none => MainOutcome.raised
          | some d =>
            MainOutcome.exited
              (if (create_3d_from_sprite env p o d a3).result = ConvResult.ok
               then 0 else 1)
              (create_3d_from_sprite env p o d a3))
    ∧ (∀ env argv, argv.length < 2 →
        spriteTo3d_main env argv = MainOutcome.usage
        ∧ characterTo3d_main env argv = MainOutcome.usage
        ∧ fbxToGlb_script env argv = FbxOutcome.usageExit) := by
  refine ⟨?_, ?_, ?_⟩
  · intro env p o a2 a3
    cases hp : pyFloat a3 <;> simp [characterTo3d_main, hp]
  · intro env p o a2 a3
    cases hp : pyFloat a2 <;> simp [spriteTo3d_main, hp]
  · intro env argv hlen
    cases argv with
    | nil => exact ⟨rfl, rfl, rfl⟩
    | cons a t =>
      cases t with
      | nil => exact ⟨rfl, rfl, rfl⟩
      | cons b t2 =>
        exact absurd hlen (by simp)

/-- Witness for C3's amended theorem: the usage branch at the empty
argument list. -/
theorem c3_cli_contract_witness :
    spriteTo3d_main env0 [] = MainOutcome.usage
    ∧ characterTo3d_main env0 [] = MainOutcome.usage
    ∧ fbxToGlb_script env0 [] = FbxOutcome.usageExit :=
  c3_cli_contract_amended.2.2 env0 [] (by decide)

/-- What the `billboard-depth` branch creates at `depth = 1/10` for a
sprite of aspect ratio `a` (claim C4): exactly two planes — the front
textured alpha-blended billboard at the origin with scale `(a, 1, 1)`,
and behind it at `y = -1/10` a 5%-larger plane with an untextured flat
black material at alpha `3/10`. -/
def billboardDepthDescription (env : Env) (p o : String) (a : ℚ) : Prop :=
  let out := create_billboard_character env p o "billboard-depth" (1/10)
  out.objects.map (fun ob => ob.shape) = [Shape.plane, Shape.plane]
  ∧ out.objects.map (fun ob => ob.location) = [⟨0, 0, 0⟩, ⟨0, -(1/10), 0⟩]
  ∧ out.objects.map (fun ob => ob.scale) = [⟨a, 1, 1⟩, ⟨a * (21/20), 21/20, 1⟩]
  ∧ out.objects.map (fun ob => ob.material.textureImage) = [some p, none]
  ∧ out.objects.map (fun ob => ob.material.baseColorFromTexture) = [true, false]
  ∧ out.objects.map (fun ob => ob.material.alphaFromTexture) = [true, false]
  ∧ out.objects.map (fun ob => ob.material.baseColorValue) = [none, some ⟨0, 0, 0, 1⟩]
  ∧ out.objects.map (fun ob => ob.material.alphaValue) = [none, some (3/10)]
  ∧ out.objects.map (fun ob => ob.material.blend) = [BlendMethod.BLEND, BlendMethod.BLEND]

/-- Claim C4: the BillboardWithDepth method with `depth = 1/10` creates
exactly 2 primitives — a front textured alpha-blended plane scaled
`(aspect, 1, 1)` at the origin, and a back plane 1.05x larger in the
billboard plane with a flat black material at 30% opacity at
`y = -1/10`. -/
theorem c4_billboard_depth (env : Env) (p o : String) (w h : ℕ)
    (hf : env.fileExists p = true) (hl : env.loadImage p = some (w, h)) :
    billboardDepthDescription env p o ((w : ℚ) / (h : ℚ)) := by
  refine ⟨?_, ?_, ?_, ?_, ?_, ?_, ?_, ?_, ?_⟩ <;>
    simp [billboardDepthDescription, create_billboard_character, hf, hl]

/-- Witness for C4's theorem at the concrete environment `env0`. -/
theorem c4_billboard_depth_witness :
    billboardDepthDescription env0 "s.png" "o.glb" ((800 : ℚ) / (400 : ℚ)) :=
  c4_billboard_depth env0 "s.png" "o.glb" 800 400 rfl rfl

/-- What the extrude branch creates for an 800x400 sprite at
`depth = 1/2` (claim C5), in both `blender-sprite-to-3d.py` and
`blender-quick-convert.py`: exactly one cube scaled `(2, 1, 1/2)` with a
single alpha-blended material binding the sprite texture to both Base
Color and Alpha, UV-unwrapped with the `ANGLE_BASED` method and margin
`1/1000`. -/
def extrudeDescription (env : Env) (p o : String) : Prop :=
  let out1 := create_3d_from_sprite env p o (1/2) "extrude"
  let out2 := convert_sprite_to_3d env p o (1/2) "extrude"
  out1.objects.map (fun ob => ob.shape) = [Shape.cube]
  ∧ out1.objects.map (fun ob => ob.scale) = [⟨2, 1, 1/2⟩]
  ∧ out1.objects.map (fun ob => ob.material.textureImage) = [some p]
  ∧ out1.objects.map (fun ob => ob.material.baseColorFromTexture) = [true]
  ∧ out1.objects.map (fun ob => ob.material.alphaFromTexture) = [true]
  ∧ out1.objects.map (fun ob => ob.material.blend) = [BlendMethod.BLEND]
  ∧ out1.objects.map (fun ob => ob.uv) = [some ⟨"ANGLE_BASED", 1/1000⟩]
  ∧ out2.objects.map (fun ob => ob.shape) = [Shape.cube]
  ∧ out2.objects.map (fun ob => ob.scale) = [⟨2, 1, 1/2⟩]
  ∧ out2.objects.map (fun ob => ob.material.textureImage) = [some p]
  ∧ out2.objects.map (fun ob => ob.material.baseColorFromTexture) = [true]
  ∧ out2.objects.map (fun ob => ob.material.alphaFromTexture) = [true]
  ∧ out2.objects.map (fun ob => ob.material.blend) = [BlendMethod.BLEND]
  ∧ out2.objects.map (fun ob => ob.uv) = [some ⟨"ANGLE_BASED", 1/1000⟩]

/-- Claim C5: for an 800x400 sprite (aspect 2), method Extrude and
`depth = 1/2`, both conversion scripts create exactly one cuboid scaled
`(2, 1, 1/2)` with one alpha-blended texture-bound material, unwrapped
`ANGLE_BASED` with margin `1/1000`. -/
theorem c5_extrude_cuboid (env : Env) (p o : String)
    (hf : env.fileExists p = true) (hl : env.loadImage p = some (800, 400)) :
    extrudeDescription env p o := by
  refine ⟨?_, ?_, ?_, ?_, ?_, ?_, ?_, ?_, ?_, ?_, ?_, ?_, ?_, ?_⟩ <;>
    simp [extrudeDescription, create_3d_from_sprite, convert_sprite_to_3d, hf, hl] <;>
    norm_num

/-- Witness for C5's theorem at the concrete environment `env0`. -/
theorem c5_extrude_cuboid_witness : extrudeDescription env0 "s.png" "out/o.glb" :=
  c5_extrude_cuboid env0 "s.png" "out/o.glb" rfl rfl

/-- What the capsule branch creates for a sprite of aspect ratio `a`
(claim C6): a uv-sphere body scaled `(a * 3/5, 3/5, 1)` sitting above the
origin at `z = 1/2`, whose material binds the texture to Base Color and
to Emission Color with emission strength `1/2`, plus a separate
front-facing billboard plane with its own alpha-blended textured
material. -/
def capsuleDescription (env : Env) (p o : String) (a : ℚ) : Prop :=
  let out := create_billboard_character env p o "capsule" (1/10)
  out.objects.map (fun ob => ob.shape) = [Shape.uvSphere, Shape.plane]
  ∧ out.objects.map (fun ob => ob.location) = [⟨0, 0, 1/2⟩, ⟨0, 1/10, 1/2⟩]
  ∧ out.objects.map (fun ob => ob.scale) = [⟨a * (3/5), 3/5, 1⟩, ⟨a, 1, 1⟩]
  ∧ out.objects.map (fun ob => ob.material.textureImage) = [some p, some p]
  ∧ out.objects.map (fun ob => ob.material.baseColorFromTexture) = [true, true]
  ∧ out.objects.map (fun ob => ob.material.emissionFromTexture) = [true, false]
  ∧ out.objects.map (fun ob => ob.material.emissionStrength) = [some (1/2), none]
  ∧ out.objects.map (fun ob => ob.material.alphaFromTexture) = [true, true]
  ∧ out.objects.map (fun ob => ob.material.blend) = [BlendMethod.BLEND, BlendMethod.BLEND]
  ∧ out.objects.map (fun ob => ob.material.name)
    = ["CharacterMaterial", "CharacterSpriteMaterial"]

/-- Claim C6: the Capsule method creates a rounded body primitive scaled
`(aspect * 3/5, 3/5, 1)` above the origin whose material uses the texture
for base color and emission (strength `1/2`), plus a front billboard
plane with its own alpha-blended textured material. -/
theorem c6_capsule (env : Env) (p o : String) (w h : ℕ)
    (hf : env.fileExists p = true) (hl : env.loadImage p = some (w, h)) :
    capsuleDescription env p o ((w : ℚ) / (h : ℚ)) := by
  refine ⟨?_, ?_, ?_, ?_, ?_, ?_, ?_, ?_, ?_, ?_⟩ <;>
    simp [capsuleDescription, create_billboard_character, hf, hl]

/-- Witness for C6's theorem at the concrete environment `env0`. -/
theorem c6_capsule_witness :
    capsuleDescription env0 "s.png" "o.glb" ((800 : ℚ) / (400 : ℚ)) :=
  c6_capsule env0 "s.png" "o.glb" 800 400 rfl rfl

/-- Claim C7: when the sprite path does not exist, every conversion
function stops with the not-found failure before building anything or
reaching the export call, so no output file is produced. -/
theorem c7_missing_sprite (env : Env) (p o : String) (d : ℚ) (m : String)
    (hf : env.fileExists p = false) :
    create_3d_from_sprite env p o d m
      = { objects := [], exported := none, result := ConvResult.errNotFound }
    ∧ create_billboard_character env p o m d
      = { objects := [], exported := none, result := ConvResult.errNotFound }
    ∧ convert_sprite_to_3d env p o d m
      = { objects := [], exported := none, result := ConvResult.errNotFound } := by
  refine ⟨?_, ?_, ?_⟩ <;>
    simp [create_3d_from_sprite, create_billboard_character, convert_sprite_to_3d, hf]

/-- Witness for C7's theorem: `missing.png` does not exist in `env0`. -/
theorem c7_missing_sprite_witness :
    create_3d_from_sprite env0 "missing.png" "o.glb" (1/2) "extrude"
      = { objects := [], exported := none, result := ConvResult.errNotFound }
    ∧ create_billboard_character env0 "missing.png" "o.glb" "extrude" (1/2)
      = { objects := [], exported := none, result := ConvResult.errNotFound }
    ∧ convert_sprite_to_3d env0 "missing.png" "o.glb" (1/2) "extrude"
      = { objects := [], exported := none, result := ConvResult.errNotFound } :=
  c7_missing_sprite env0 "missing.png" "o.glb" (1/2) "extrude" rfl

/-- Claim C8 fails as stated: the CLI entry point of
`blender-sprite-to-3d.py` passes `depth = 5` — outside `[1/10, 2]` —
straight through to geometry: the cuboid is scaled `(2, 1, 5)` and the
run exits 0. Nothing clamps or rejects it. -/
theorem c8_depth_counterexample :
    ¬ ((1 : ℚ)/10 ≤ 5 ∧ (5 : ℚ) ≤ 2)
    ∧ spriteTo3d_main env0 ["s.png", "out/o.glb", "5", "extrude"]
      = MainOutcome.exited 0 (create_3d_from_sprite env0 "s.png" "out/o.glb" 5 "extrude")
    ∧ (create_3d_from_sprite env0 "s.png" "out/o.glb" 5 "extrude").objects.map
        (fun ob => ob.scale) = [⟨2, 1, 5⟩] := by
  refine ⟨by norm_num, ?_, ?_⟩
  · have hp : pyFloat "5" = some 5 := by
      simp [pyFloat, digitsVal]
    simp [spriteTo3d_main, hp, create_3d_from_sprite, env0]
  · simp [create_3d_from_sprite, env0]
    norm_num

/-- Claim C8, amended: only the addon operator constrains `depth` — its
`FloatProperty` clamps any assigned value into `[1/10, 2]` before
`execute` reads it; the standalone entry points perform no validation and
use an out-of-range depth exactly as given (the extrude cuboid's z-scale
and the shadow plane's y-offset are the raw value). -/
theorem c8_depth_policy_amended :
    (∀ r : ℚ, 1/10 ≤ addonDepthClamp r ∧ addonDepthClamp r ≤ 2)
    ∧ (∀ (env : Env) (p o : String) (d : ℚ) (w h : ℕ),
        env.fileExists p = true → env.loadImage p = some (w, h) →
        (create_3d_from_sprite env p o d "extrude").objects.map (fun ob => ob.scale.z)
          = [d]
        ∧ (create_billboard_character env p o "billboard-depth" d).objects.map
            (fun ob => ob.location.y) = [0, -d]) := by
  constructor
  · intro r
    exact ⟨le_max_left _ _, max_le (by norm_num) (min_le_left _ _)⟩
  · intro env p o d w h hf hl
    constructor
    · simp [create_3d_from_sprite, hf, hl]
    · simp [create_billboard_character, hf, hl]

/-- Witness for C8's amended theorem at `depth = 5` and `env0`. -/
theorem c8_depth_policy_witness :
    ((1 : ℚ)/10 ≤ addonDepthClamp 5 ∧ addonDepthClamp 5 ≤ 2)
    ∧ ((create_3d_from_sprite env0 "s.png" "o.glb" 5 "extrude").objects.map
        (fun ob => ob.scale.z) = [5]
      ∧ (create_billboard_character env0 "s.png" "o.glb" "billboard-depth" 5).objects.map
          (fun ob => ob.location.y) = [0, -5]) :=
  ⟨c8_depth_policy_amended.1 5,
   c8_depth_policy_amended.2 env0 "s.png" "o.glb" 5 800 400 rfl rfl⟩

/-- Alpha wiring of the three voxel branches (claim C9): the
quick-convert script and the addon operator link only the texture's Color
output (no Alpha link, though blend is `'BLEND'`), while the standalone
sprite-to-3d script links Alpha as well. -/
def voxelAlphaLinkDescription (env : Env) (p o : String) (d : ℚ) : Prop :=
  (∀ ob ∈ (convert_sprite_to_3d env p o d "voxel").objects,
    ob.material.baseColorFromTexture = true
    ∧ ob.material.alphaFromTexture = false
    ∧ ob.material.blend = BlendMethod.BLEND)
  ∧ (∀ ob ∈ (ConvertSpriteTo3D_execute env p d AddonMethod.VOXEL).objects,
    ob.material.baseColorFromTexture = true
    ∧ ob.material.alphaFromTexture = false
    ∧ ob.material.blend = BlendMethod.BLEND)
  ∧ (∀ ob ∈ (create_3d_from_sprite env p o d "voxel").objects,
    ob.material.alphaFromTexture = true)
  ∧ (create_3d_from_sprite env p o d "voxel").objects ≠ []
  ∧ (convert_sprite_to_3d env p o d "voxel").objects ≠ []
  ∧ (ConvertSpriteTo3D_execute env p d AddonMethod.VOXEL).objects ≠ []

/-- Claim C9: in the voxel branch of the quick-convert script and of the
addon operator, each per-layer material binds only the texture's color to
base color and never links the alpha output, despite blend `'BLEND'`;
the standalone sprite-to-3d script's voxel branch links alpha as well. -/
theorem c9_voxel_alpha_links (env : Env) (p o : String) (d : ℚ) (w h : ℕ)
    (hf : env.fileExists p = true) (hl : env.loadImage p = some (w, h)) :
    voxelAlphaLinkDescription env p o d := by
  refine ⟨?_, ?_, ?_, ?_, ?_, ?_⟩ <;>
    simp [voxelAlphaLinkDescription, convert_sprite_to_3d, ConvertSpriteTo3D_execute,
      create_3d_from_sprite, hf, hl, voxelLayerColorOnly, voxelLayerSprite,
      List.range_succ]

/-- Witness for C9's theorem at the concrete environment `env0`. -/
theorem c9_voxel_alpha_links_witness :
    voxelAlphaLinkDescription env0 "s.png" "out/o.glb" (1/2) :=
  c9_voxel_alpha_links env0 "s.png" "out/o.glb" (1/2) 800 400 rfl rfl

/-- Claim C10: when the quick-convert output path has no directory
component, `os.path.dirname` is the empty string and the unconditional
`os.makedirs` raises before the export is reached, even though the mesh
and material were already built — the conversion dies with an uncaught
exception and writes nothing. -/
theorem c10_bare_output_path (env : Env) (p o : String) (d : ℚ) (w h : ℕ)
    (hf : env.fileExists p = true) (hl : env.loadImage p = some (w, h))
    (ho : dirname o = "") :
    (convert_sprite_to_3d env p o d "extrude").result = ConvResult.raisedMakedirs
    ∧ (convert_sprite_to_3d env p o d "extrude").exported = none
    ∧ (convert_sprite_to_3d env p o d "extrude").objects ≠ [] := by
  refine ⟨?_, ?_, ?_⟩ <;> simp [convert_sprite_to_3d, hf, hl, ho]

/-- Witness for C10's theorem: the bare filename `out.glb` in `env0`. -/
theorem c10_bare_output_path_witness :
    (convert_sprite_to_3d env0 "s.png" "out.glb" (1/2) "extrude").result
      = ConvResult.raisedMakedirs
    ∧ (convert_sprite_to_3d env0 "s.png" "out.glb" (1/2) "extrude").exported = none
    ∧ (convert_sprite_to_3d env0 "s.png" "out.glb" (1/2) "extrude").objects ≠ [] :=
  c10_bare_output_path env0 "s.png" "out.glb" (1/2) 800 400 rfl rfl (by decide)

